import Mathlib

/-!
Shallow embedding of the dynamic object / property / signal runtime of the
gtk-rs `glib` crate (file `src/object.rs`, supported by `src/types.rs`,
`src/value.rs` and `src/gobject/flags.rs`).

The host-side logic under verification is translated function by function
from `src/object.rs`.  The foreign GObject C runtime (type registry,
value containers, signal dispatcher, weak-reference slots) is not part of
the repository; it enters the model as the `Foreign` structure whose
fields are the capabilities the specification assumes of it, plus a few
concrete functions explicitly marked as modelled from the spec.
-/

namespace GlibCore

/-- Runtime type identifier (`Type` in `src/types.rs`).  `invalid` and
`unit` are the fundamental `G_TYPE_INVALID` / `G_TYPE_NONE` values that
`src/object.rs` compares against; every other type is identified by its
lineage: the list of registry ids from the type itself up to its root.
The foreign registry guarantees `is_a` is the reflexive-transitive
ancestor relation, which the lineage encoding realises as list suffixes. -/
inductive GType where
  | invalid : GType
  | unit : GType
  | derived : List Nat → GType
deriving DecidableEq

/-- Foreign `g_type_is_a`: reflexive on the fundamentals, ancestor
(= lineage suffix) test on derived types. -/
def GType.isA (a b : GType) : Bool :=
  match a, b with
  | GType.derived x, GType.derived y => y.isSuffixOf x
  | x, y => decide (x = y)

/-- Ancestor chain of a type, the type itself first, root last. -/
def GType.ancestors (t : GType) : List GType :=
  match t with
  | GType.derived l => (l.tails.filter (fun s => !s.isEmpty)).map GType.derived
  | t => [t]

/-- Dynamic value container (`Value` in `src/value.rs`): a type tag plus
an abstract payload. -/
structure GValue where
  type : GType
  data : Nat
deriving DecidableEq

/-- Container freshly initialized to a type (`Value::from_type`,
`g_value_init` on zeroed storage). -/
def GValue.fromType (t : GType) : GValue := GValue.mk t 0

/-- Foreign `g_type_check_value_holds(value, t)`: the value's runtime
type is `t` or a subtype of it (the commentary in
`ObjectExt::set_property` states exactly this reading). -/
def gTypeCheckValueHolds (v : GValue) (t : GType) : Bool := v.type.isA t

/-- Property flag bits, values from `src/src/gobject/flags.rs`. -/
def pfReadable : Nat := 1

/-- WRITABLE bit of `ParamFlags`. -/
def pfWritable : Nat := 2

/-- CONSTRUCT_ONLY bit of `ParamFlags`. -/
def pfConstructOnly : Nat := 8

/-- LAX_VALIDATION bit of `ParamFlags`. -/
def pfLaxValidation : Nat := 16

/-- bitflags `contains`: every bit of `flag` is set in `flags`. -/
def flagsContain (flags flag : Nat) : Bool := flags &&& flag == flag

/-- Property descriptor (`ParamSpec`): name, access flag bits, declared
value type. -/
structure ParamSpec where
  name : String
  flags : Nat
  valueType : GType
deriving DecidableEq

/-- Result of the foreign `g_signal_query` call: the id it reports back
(0-filled when the queried id is invalid), the registered parameter
types and the registered return type. -/
structure SignalQuery where
  signalId : Nat
  paramTypes : List GType
  returnType : GType
deriving DecidableEq

/-- Typed object wrapper produced by `glib_object_wrapper!`: the shared
`ObjectRef` is the underlying instance pointer, the phantom marker is
the wrapper's static type. -/
structure Wrapper where
  ptr : Nat
  tag : GType
deriving DecidableEq

/-- Weak reference (`WeakRef<T>`): the foreign weak slot either tracks
an instance pointer or was initialized empty (`WeakRef::new`). -/
structure WeakRef where
  slot : Option Nat
  tag : GType
deriving DecidableEq

/-- Thread-confined weak reference (`SendWeakRef<T>`): a weak reference
plus the optional id of the thread it was converted on. -/
structure SendWeakRef where
  inner : WeakRef
  thread : Option Nat
deriving DecidableEq

/-- Per-instance foreign property storage plus the log of change
notifications the foreign side has emitted for it. -/
structure Store where
  vals : List (String × GValue)
  notified : List String
deriving DecidableEq

/-- Capabilities of the foreign GObject runtime, as assumed by the spec:
runtime type of each instance, per-type own property descriptors,
`g_param_value_validate` (possibly-modified value and whether it was
modified), `g_object_get_property` (fills a pre-typed container),
`g_signal_parse_name`, `g_signal_query`, the payload an emission writes
into the return container, and per-instance strong reference counts. -/
structure Foreign where
  instType : Nat → GType
  props : GType → List ParamSpec
  validate : ParamSpec → GValue → GValue × Bool
  readProp : Nat → String → GValue → GValue
  parseName : GType → String → Option (Nat × Nat)
  query : Nat → SignalQuery
  emitData : List GValue → Nat → Nat → Nat
  refCount : Nat → Nat

/-- Error kinds of `BoolError` results in `src/object.rs`, one
constructor per distinct static message of the source. -/
inductive BErr where
  | propertyNotFound : BErr
  | propertyNotWritable : BErr
  | propertyTypeMismatch : BErr
  | propertyOutOfRange : BErr
  | propertyNotReadable : BErr
  | getPropertyFailed : BErr
  | invalidPropertyName : BErr
  | invalidPropertyType : BErr
  | signalNotFound : BErr
  | incompatibleArgNumber : BErr
  | incompatibleArgTypes : BErr
deriving DecidableEq

/-- Runtime type of the wrapped instance (`ObjectExt::get_type`, read
from the instance's class). -/
def getType (fr : Foreign) (w : Wrapper) : GType := fr.instType w.ptr

/-- `ObjectExt::is::<T>`: the instance's runtime type is-a `T`. -/
def isInst (fr : Foreign) (w : Wrapper) (t : GType) : Bool :=
  (getType fr w).isA t

/-- `Cast::unsafe_cast` (named without the first word here): pure
representation reinterpretation, keeping the `ObjectRef` and replacing
only the static marker type. -/
def uncheckedCast (w : Wrapper) (t : GType) : Wrapper := Wrapper.mk w.ptr t

/-- `Cast::upcast::<T>`: always succeeds, the `IsA` bound being a
compile-time obligation recorded as a hypothesis in the theorems. -/
def upcast (w : Wrapper) (t : GType) : Wrapper := uncheckedCast w t

/-- `Cast::downcast::<T>`: runtime `is` check, narrowed wrapper on
success, the original wrapper on failure. -/
def downcast (fr : Foreign) (w : Wrapper) (t : GType) : Except Wrapper Wrapper :=
  if isInst fr w t then Except.ok (uncheckedCast w t) else Except.error w

/-- `Cast::dynamic_cast::<T>`: same runtime check, written in the
source with the branches flipped. -/
def dynamicCast (fr : Foreign) (w : Wrapper) (t : GType) : Except Wrapper Wrapper :=
  if (isInst fr w t) = false then Except.error w else Except.ok (uncheckedCast w t)

/-- Wrapper equality from the generated `PartialEq` impl: comparison of
the underlying instance pointers, whatever the static types involved. -/
def weq (a b : Wrapper) : Bool := a.ptr == b.ptr

/-- Wrapper ordering from the generated `PartialOrd` impl: ordering of
the underlying instance pointers. -/
def wcmp (a b : Wrapper) : Ordering := compare a.ptr b.ptr

/-- Wrapper hash from the derived `Hash` impl: the hash of the shared
`ObjectRef`, i.e. of the instance pointer (the phantom marker carries
no data). -/
def whash (a : Wrapper) : UInt64 := hash a.ptr

/-- `ObjectClass::find_property` via `g_object_class_find_property`:
first descriptor with the requested name found walking the instance
type's lineage from the type itself upwards. -/
def findProperty (fr : Foreign) (w : Wrapper) (n : String) : Option ParamSpec :=
  (((getType fr w).ancestors.map fr.props).flatten).find? (fun p => p.name == n)

/-- Foreign `g_object_set_property`.  Modelled from the spec: commit the
value to foreign storage and trigger the change notification for the
property, once per call. -/
def gObjectSetProperty (s : Store) (n : String) (v : GValue) : Store :=
  Store.mk ((n, v) :: s.vals) (s.notified ++ [n])

/-- `ObjectExt::set_property`, translated clause by clause from
`src/object.rs`: descriptor lookup, writability check, value-type
check, foreign validation honoring LAX_VALIDATION, commit. -/
def set_property (fr : Foreign) (s : Store) (w : Wrapper) (n : String) (v : GValue) :
    Except BErr Store :=
  match findProperty fr w n with
  | none => Except.error BErr.propertyNotFound
  | some pspec =>
    if !(flagsContain pspec.flags pfWritable) || flagsContain pspec.flags pfConstructOnly then
      Except.error BErr.propertyNotWritable
    else if !(gTypeCheckValueHolds v pspec.valueType) then
      Except.error BErr.propertyTypeMismatch
    else
      let validated := fr.validate pspec v
      if validated.2 && !(flagsContain pspec.flags pfLaxValidation) then
        Except.error BErr.propertyOutOfRange
      else
        Except.ok (gObjectSetProperty s n validated.1)

/-- `ObjectExt::get_property`: descriptor lookup, readability check,
read into a container freshly initialized to the declared type, post-read
invalid type reported as a failure. -/
def get_property (fr : Foreign) (w : Wrapper) (n : String) : Except BErr GValue :=
  match findProperty fr w n with
  | none => Except.error BErr.propertyNotFound
  | some pspec =>
    if !(flagsContain pspec.flags pfReadable) then
      Except.error BErr.propertyNotReadable
    else
      let value := fr.readProp w.ptr n (GValue.fromType pspec.valueType)
      if value.type = GType.invalid then
        Except.error BErr.getPropertyFailed
      else
        Except.ok value

/-- `ObjectClass::get_property_type`: declared value type of the named
property, when found. -/
def get_property_type (fr : Foreign) (w : Wrapper) (n : String) : Option GType :=
  (findProperty fr w n).map (fun p => p.valueType)

/-- `ObjectClass::has_property`: existence check, with an exact declared
value type comparison when an expected type is supplied. -/
def has_property (fr : Foreign) (w : Wrapper) (n : String) (t : Option GType) :
    Except BErr Unit :=
  match get_property_type fr w n, t with
  | none, _ => Except.error BErr.invalidPropertyName
  | some _, none => Except.ok ()
  | some pt, some t => if pt = t then Except.ok () else Except.error BErr.invalidPropertyType

/-- Outcome of one invocation of the closure `ObjectExt::connect` wraps
around the user handler: a panic (one constructor per panic site in the
source) or a returned optional value handed to the dispatcher. -/
inductive ClosureOutcome where
  | panicUnexpectedReturn : ClosureOutcome
  | panicWrongReturnType : ClosureOutcome
  | panicMissingReturn : ClosureOutcome
  | ret : Option GValue → ClosureOutcome
deriving DecidableEq

/-- Return-contract enforcement of the closure built in
`ObjectExt::connect`, as a function of the signal's registered return
type and of the value the user handler produced.  The source guards
none of these branches behind a build-configuration attribute: the
checks and panics are compiled into every build. -/
def connectWrap (returnType : GType) (handlerRet : Option GValue) : ClosureOutcome :=
  if returnType = GType.unit then
    match handlerRet with
    | some _ => ClosureOutcome.panicUnexpectedReturn
    | none => ClosureOutcome.ret none
  else
    match handlerRet with
    | some r =>
      if gTypeCheckValueHolds r returnType then ClosureOutcome.ret (some r)
      else ClosureOutcome.panicWrongReturnType
    | none => ClosureOutcome.panicMissingReturn

/-- Claimed variant of the return-contract enforcement, following the
spec's words that the arity/type check is performed only in debuggable
builds: outside such builds the handler's value would be passed through
unchecked.  Stated for comparison with `connectWrap`, which is the
translation of the source and carries no build-configuration gate. -/
def connectWrapClaimed (debuggable : Bool) (returnType : GType) (handlerRet : Option GValue) :
    ClosureOutcome :=
  if debuggable then connectWrap returnType handlerRet
  else ClosureOutcome.ret handlerRet

/-- Per-argument type check in `ObjectExt::emit`: each registered
parameter type must equal the supplied value's type exactly. -/
def argTypesMatch (ps : List GType) (args : List GValue) : Bool :=
  (ps.zip args).all (fun pa => pa.1 == pa.2.type)

/-- Implicit first argument of an emission: a value initialized to the
emitting instance's runtime type and holding the instance itself. -/
def emitSelfValue (fr : Foreign) (w : Wrapper) : GValue :=
  GValue.mk (getType fr w) w.ptr

/-- Return container as `ObjectExt::emit` prepares it: initialized to
the registered return type unless that type is `G_TYPE_NONE`, in which
case it stays zeroed, i.e. of invalid type. -/
def emitRetInit (rt : GType) : GValue :=
  if rt = GType.unit then GValue.mk GType.invalid 0 else GValue.mk rt 0

/-- Foreign `g_signal_emitv`.  Modelled from the spec: the dispatcher
runs the connected handlers and accumulates a single return value into
the caller-provided, pre-typed container; an uninitialized container
(unit-returning signal) is left untouched. -/
def gSignalEmitv (fr : Foreign) (argv : List GValue) (sid detail : Nat) (ret : GValue) :
    GValue :=
  if ret.type = GType.invalid then ret
  else GValue.mk ret.type (fr.emitData argv sid detail)

/-- `ObjectExt::emit`, translated clause by clause: signal name
resolution, query-consistency check, argument count check, exact
per-argument type check, emission with the instance prepended, and the
final wrapping of the collected return value. -/
def emit (fr : Foreign) (w : Wrapper) (n : String) (args : List GValue) :
    Except BErr (Option GValue) :=
  match fr.parseName (getType fr w) n with
  | none => Except.error BErr.signalNotFound
  | some (sid, detail) =>
    let details := fr.query sid
    if details.signalId ≠ sid then Except.error BErr.signalNotFound
    else if details.paramTypes.length ≠ args.length then
      Except.error BErr.incompatibleArgNumber
    else if !(argTypesMatch details.paramTypes args) then
      Except.error BErr.incompatibleArgTypes
    else
      let rv := gSignalEmitv fr (emitSelfValue fr w :: args) sid detail
        (emitRetInit details.returnType)
      if rv.type ≠ GType.unit ∧ rv.type ≠ GType.invalid then Except.ok (some rv)
      else Except.ok none

/-- `ObjectExt::downgrade`: initialize a weak slot tracking the
instance, keeping the wrapper's static type. -/
def downgrade (w : Wrapper) : WeakRef := WeakRef.mk (some w.ptr) w.tag

/-- Foreign `g_weak_ref_get`.  Modelled from the spec: atomically check
liveness and hand back a strong reference to the tracked instance, or
nothing once the instance has been destroyed (or for an empty slot). -/
def gWeakRefGet (fr : Foreign) (wr : WeakRef) : Option Nat :=
  match wr.slot with
  | none => none
  | some p => if 0 < fr.refCount p then some p else none

/-- `WeakRef::upgrade`: wrap the pointer handed back by the foreign
weak-slot primitive, or return nothing when it is null. -/
def upgrade (fr : Foreign) (wr : WeakRef) : Option Wrapper :=
  match gWeakRefGet fr wr with
  | none => none
  | some p => some (Wrapper.mk p wr.tag)

/-- Dropping one strong handle: the foreign reference count of the
instance decreases by one; at zero the instance counts as destroyed. -/
def dropStrong (fr : Foreign) (p : Nat) : Foreign :=
  { fr with refCount := fun q => if q = p then fr.refCount q - 1 else fr.refCount q }

/-- `From<WeakRef<T>> for SendWeakRef<T>`: record the id of the calling
thread as the origin thread. -/
def sendWeakRefFrom (wr : WeakRef) (currentThread : Nat) : SendWeakRef :=
  SendWeakRef.mk wr (some currentThread)

/-- `Deref for SendWeakRef`: panic (`none`) when an origin thread is
recorded and differs from the calling thread, otherwise the inner weak
reference. -/
def sendWeakRefDeref (s : SendWeakRef) (currentThread : Nat) : Option WeakRef :=
  if s.thread.isSome ∧ s.thread ≠ some currentThread then none
  else some s.inner

/-- `SendWeakRef::into_weak_ref`: same thread check as `Deref`, then
the inner weak reference by value. -/
def sendWeakRefIntoWeakRef (s : SendWeakRef) (currentThread : Nat) : Option WeakRef :=
  if s.thread.isSome ∧ s.thread ≠ some currentThread then none
  else some s.inner

/-- `Clone for SendWeakRef`: clones both fields with no thread check,
so it cannot panic on any thread. -/
def sendWeakRefClone (s : SendWeakRef) (currentThread : Nat) : Option SendWeakRef :=
  some (SendWeakRef.mk s.inner s.thread)

/-- Dropping a `SendWeakRef` runs only `WeakRef`'s drop, which clears
the foreign slot with no thread check, so it cannot panic on any
thread. -/
def sendWeakRefDrop (s : SendWeakRef) (currentThread : Nat) : Option Unit :=
  some ()

/-! Concrete example world used by the witness theorems: a small type
hierarchy, a few property descriptors and signal registrations, and a
handful of live instances. -/

/-- Base object type of the example hierarchy. -/
def tRoot : GType := GType.derived [0]

/-- Subtype of `tRoot`. -/
def tMid : GType := GType.derived [1, 0]

/-- Subtype of `tMid`. -/
def tSub : GType := GType.derived [2, 1, 0]

/-- Second subtype of `tRoot`, unrelated to `tMid`. -/
def tOther : GType := GType.derived [3, 0]

/-- Value type used by the example properties. -/
def tInt : GType := GType.derived [10]

/-- Subtype of the value type `tInt`. -/
def tIntSub : GType := GType.derived [11, 10]

/-- Readable and writable property of declared type `tInt`. -/
def pspecRW : ParamSpec := ParamSpec.mk "p" 3 tInt

/-- Writable but construct-only property. -/
def pspecCO : ParamSpec := ParamSpec.mk "co" 10 tInt

/-- Writable property with LAX_VALIDATION set. -/
def pspecLax : ParamSpec := ParamSpec.mk "lax" 19 tInt

/-- Write-only property (flags lack READABLE). -/
def pspecWO : ParamSpec := ParamSpec.mk "wo" 2 tInt

/-- Readable property whose foreign-side read misbehaves in the
example world. -/
def pspecBad : ParamSpec := ParamSpec.mk "bad" 1 tInt

/-- Property installed on the root type, seen by subtypes through the
lineage walk. -/
def pspecBase : ParamSpec := ParamSpec.mk "base" 3 tInt

/-- Example foreign runtime: instance 1 has runtime type `tSub` (one
live strong reference), instance 2 has type `tMid` (two references);
`tMid` installs most properties, `tRoot` installs `base`; validation
clamps payloads above 100 to 100; signal 7 takes one `tInt` and
returns nothing, signal 8 takes one `tInt` and returns `tInt`. -/
def exFr : Foreign :=
  Foreign.mk
    (fun p => if p = 1 then tSub else if p = 2 then tMid else tRoot)
    (fun t =>
      if t = tMid then [pspecRW, pspecCO, pspecLax, pspecWO, pspecBad]
      else if t = tRoot then [pspecBase]
      else [])
    (fun _ v => if v.data > 100 then (GValue.mk v.type 100, true) else (v, false))
    (fun _ n c => if n == "bad" then GValue.mk GType.invalid 0 else c)
    (fun t n =>
      if n == "sig" && t.isA tMid then some (7, 0)
      else if n == "vsig" && t.isA tMid then some (8, 0)
      else if n == "ghost" && t.isA tMid then some (9, 0)
      else none)
    (fun sid =>
      if sid = 7 then SignalQuery.mk 7 [tInt] GType.unit
      else if sid = 8 then SignalQuery.mk 8 [tInt] tInt
      else SignalQuery.mk 0 [] GType.invalid)
    (fun _ _ _ => 42)
    (fun p => if p = 1 then 1 else if p = 2 then 2 else 0)

/-- Example wrapper: instance 1 observed at its exact type `tSub`. -/
def exW : Wrapper := Wrapper.mk 1 tSub

/-- Example wrapper: instance 2 observed at type `tMid`. -/
def exW2 : Wrapper := Wrapper.mk 2 tMid

/-- Empty example store. -/
def exStore : Store := Store.mk [] []

/-- In-range example value of type `tInt`. -/
def exVInt : GValue := GValue.mk tInt 5

/-- Example value of the subtype `tIntSub`. -/
def exVSub : GValue := GValue.mk tIntSub 6

/-- Out-of-range example value (payload above the clamp threshold). -/
def exVBig : GValue := GValue.mk tInt 200

/-- Example value of a type unrelated to `tInt`. -/
def exVOther : GValue := GValue.mk tOther 0

/-- Example wrapper for an already-destroyed instance (reference count
zero in `exFr`). -/
def exWDead : Wrapper := Wrapper.mk 5 tRoot

/-- C1: `set_property` performs its checks in the specified order and
returns the corresponding error at the first failing stage — missing
descriptor, descriptor not writable or construct-only, value type
neither the declared type nor a subtype, foreign validation modified
the value without LAX_VALIDATION — and only when every check passes is
the (possibly validation-adjusted) value committed to foreign storage
with an `Ok` result. -/
theorem set_property_check_order (fr : Foreign) (s : Store) (w : Wrapper) (n : String)
    (v : GValue) :
    (findProperty fr w n = none →
      set_property fr s w n v = Except.error BErr.propertyNotFound)
  ∧ (∀ p, findProperty fr w n = some p →
      ((flagsContain p.flags pfWritable = false ∨ flagsContain p.flags pfConstructOnly = true) →
        set_property fr s w n v = Except.error BErr.propertyNotWritable)
    ∧ (flagsContain p.flags pfWritable = true → flagsContain p.flags pfConstructOnly = false →
        gTypeCheckValueHolds v p.valueType = false →
        set_property fr s w n v = Except.error BErr.propertyTypeMismatch)
    ∧ (flagsContain p.flags pfWritable = true → flagsContain p.flags pfConstructOnly = false →
        gTypeCheckValueHolds v p.valueType = true →
        (fr.validate p v).2 = true → flagsContain p.flags pfLaxValidation = false →
        set_property fr s w n v = Except.error BErr.propertyOutOfRange)
    ∧ (flagsContain p.flags pfWritable = true → flagsContain p.flags pfConstructOnly = false →
        gTypeCheckValueHolds v p.valueType = true →
        ((fr.validate p v).2 = false ∨ flagsContain p.flags pfLaxValidation = true) →
        set_property fr s w n v = Except.ok (gObjectSetProperty s n (fr.validate p v).1))) := by
  constructor
  · intro hfind
    simp [set_property, hfind]
  · intro p hfind
    refine ⟨?_, ?_, ?_, ?_⟩
    · intro hw
      rcases hw with hw | hw <;> simp [set_property, hfind, hw]
    · intro hw hco hty
      simp [set_property, hfind, hw, hco, hty]
    · intro hw hco hty hch hlax
      simp [set_property, hfind, hw, hco, hty, hch, hlax]
    · intro hw hco hty hok
      rcases hok with hok | hok <;> simp [set_property, hfind, hw, hco, hty, hok]

/-- Witness for C1: each of the five stages reached at a concrete
input of the example world. -/
theorem set_property_check_order_witness :
    set_property exFr exStore exW "nope" exVInt = Except.error BErr.propertyNotFound
  ∧ set_property exFr exStore exW "co" exVInt = Except.error BErr.propertyNotWritable
  ∧ set_property exFr exStore exW "p" exVOther = Except.error BErr.propertyTypeMismatch
  ∧ set_property exFr exStore exW "p" exVBig = Except.error BErr.propertyOutOfRange
  ∧ set_property exFr exStore exW "p" exVInt = Except.ok (gObjectSetProperty exStore "p" exVInt) := by
  refine ⟨(set_property_check_order exFr exStore exW "nope" exVInt).1 (by decide),
    ((set_property_check_order exFr exStore exW "co" exVInt).2 pspecCO (by decide)).1
      (Or.inr (by decide)),
    ((set_property_check_order exFr exStore exW "p" exVOther).2 pspecRW (by decide)).2.1
      (by decide) (by decide) (by decide),
    ((set_property_check_order exFr exStore exW "p" exVBig).2 pspecRW (by decide)).2.2.1
      (by decide) (by decide) (by decide) (by decide) (by decide),
    ?_⟩
  have h := ((set_property_check_order exFr exStore exW "p" exVInt).2 pspecRW
    (by decide)).2.2.2 (by decide) (by decide) (by decide) (Or.inl (by decide))
  simpa using h

/-- C2: `downcast` and `dynamic_cast` succeed exactly when the
instance's runtime type is-a the target type, keep the underlying
pointer on success, hand the original wrapper back unchanged on
failure, and an upcast followed by a downcast to the original type
always succeeds and returns the original wrapper itself.  The
hypothesis is the wrapper invariant: the instance's runtime type is-a
the wrapper's static type. -/
theorem downcast_roundtrip (fr : Foreign) (w : Wrapper) (t s : GType)
    (hwf : (fr.instType w.ptr).isA w.tag = true) :
    (isInst fr w t = true →
        downcast fr w t = Except.ok (uncheckedCast w t)
      ∧ dynamicCast fr w t = Except.ok (uncheckedCast w t))
  ∧ (isInst fr w t = false →
        downcast fr w t = Except.error w ∧ dynamicCast fr w t = Except.error w)
  ∧ (uncheckedCast w t).ptr = w.ptr
  ∧ downcast fr (upcast w s) w.tag = Except.ok w := by
  refine ⟨?_, ?_, rfl, ?_⟩
  · intro h
    simp [downcast, dynamicCast, h]
  · intro h
    simp [downcast, dynamicCast, h]
  · have h : isInst fr (Wrapper.mk w.ptr s) w.tag = true := by
      simpa [isInst, getType] using hwf
    simp [downcast, upcast, uncheckedCast, h]

/-- Witness for C2: in the example world, upcasting instance 1 from
`tSub` to `tRoot` and downcasting back yields the original wrapper;
downcasting the `tMid` instance to the unrelated `tOther` fails with
the original wrapper, for both cast operations. -/
theorem downcast_roundtrip_witness :
    downcast exFr (upcast exW tRoot) exW.tag = Except.ok exW
  ∧ downcast exFr exW2 tOther = Except.error exW2
  ∧ dynamicCast exFr exW2 tOther = Except.error exW2 := by
  refine ⟨(downcast_roundtrip exFr exW tOther tRoot (by decide)).2.2.2, ?_, ?_⟩
  · exact ((downcast_roundtrip exFr exW2 tOther tRoot (by decide)).2.1 (by decide)).1
  · exact ((downcast_roundtrip exFr exW2 tOther tRoot (by decide)).2.1 (by decide)).2

/-- C5: wrapper equality holds exactly on pointer equality, and
equality, ordering and hash are all invariant under changing the
static wrapper type by upcast or by a successful downcast. -/
theorem wrapper_pointer_identity (fr : Foreign) (a b : Wrapper) (t u : GType) :
    (weq a b = true ↔ a.ptr = b.ptr)
  ∧ weq (upcast a t) (upcast b u) = weq a b
  ∧ wcmp (upcast a t) (upcast b u) = wcmp a b
  ∧ whash (upcast a t) = whash a
  ∧ (∀ a2, downcast fr a t = Except.ok a2 →
      weq a2 a = true ∧ wcmp a2 b = wcmp a b ∧ whash a2 = whash a) := by
  refine ⟨?_, rfl, rfl, rfl, ?_⟩
  · simp [weq]
  · intro a2 h
    have ha : a2 = uncheckedCast a t := by
      by_cases hc : isInst fr a t = true
      · simpa [downcast, hc] using h.symm
      · simp [downcast, hc] at h
    subst ha
    exact ⟨by simp [weq, uncheckedCast], rfl, rfl⟩

/-- Witness for C5: concrete pointer-identity facts in the example
world, across an upcast and a successful downcast. -/
theorem wrapper_pointer_identity_witness :
    weq (upcast exW tRoot) (upcast exW tMid) = weq exW exW
  ∧ whash (upcast exW tRoot) = whash exW
  ∧ (weq exW exW2 = true ↔ exW.ptr = exW2.ptr)
  ∧ (∀ a2, downcast exFr exW tMid = Except.ok a2 → weq a2 exW = true) := by
  refine ⟨(wrapper_pointer_identity exFr exW exW tRoot tMid).2.1,
    (wrapper_pointer_identity exFr exW exW tRoot tMid).2.2.2.1,
    (wrapper_pointer_identity exFr exW exW2 tRoot tMid).1, ?_⟩
  intro a2 h
  exact ((wrapper_pointer_identity exFr exW exW2 tMid tMid).2.2.2.2 a2 h).1

/-- C6: `get_property` reports a missing descriptor first, then a
descriptor without READABLE, then reads into a container freshly
initialized to the declared value type, failing when the post-read
type is invalid and returning the read value otherwise. -/
theorem get_property_spec (fr : Foreign) (w : Wrapper) (n : String) :
    (findProperty fr w n = none →
      get_property fr w n = Except.error BErr.propertyNotFound)
  ∧ (∀ p, findProperty fr w n = some p →
      (flagsContain p.flags pfReadable = false →
        get_property fr w n = Except.error BErr.propertyNotReadable)
    ∧ (flagsContain p.flags pfReadable = true →
        ((fr.readProp w.ptr n (GValue.fromType p.valueType)).type = GType.invalid →
          get_property fr w n = Except.error BErr.getPropertyFailed)
      ∧ ((fr.readProp w.ptr n (GValue.fromType p.valueType)).type ≠ GType.invalid →
          get_property fr w n =
            Except.ok (fr.readProp w.ptr n (GValue.fromType p.valueType))))) := by
  constructor
  · intro hfind
    simp [get_property, hfind]
  · intro p hfind
    refine ⟨?_, ?_⟩
    · intro hr
      simp [get_property, hfind, hr]
    · intro hr
      constructor
      · intro hbad
        simp [get_property, hfind, hr, hbad]
      · intro hok
        simp [get_property, hfind, hr, hok]

/-- Witness for C6: all four outcomes reached at concrete properties
of the example world. -/
theorem get_property_spec_witness :
    get_property exFr exW "nope" = Except.error BErr.propertyNotFound
  ∧ get_property exFr exW "wo" = Except.error BErr.propertyNotReadable
  ∧ get_property exFr exW "bad" = Except.error BErr.getPropertyFailed
  ∧ get_property exFr exW "p" = Except.ok (GValue.fromType tInt) := by
  refine ⟨(get_property_spec exFr exW "nope").1 (by decide),
    ((get_property_spec exFr exW "wo").2 pspecWO (by decide)).1 (by decide), ?_, ?_⟩
  · exact (((get_property_spec exFr exW "bad").2 pspecBad (by decide)).2 (by decide)).1
      (by decide)
  · have h := (((get_property_spec exFr exW "p").2 pspecRW (by decide)).2 (by decide)).2
      (by decide)
    simpa using h

/-- Helper: the shape `emit` takes once every check has passed. -/
theorem emit_all_pass (fr : Foreign) (w : Wrapper) (n : String) (args : List GValue)
    (sid detail : Nat)
    (hp : fr.parseName (getType fr w) n = some (sid, detail))
    (hq : (fr.query sid).signalId = sid)
    (hc : (fr.query sid).paramTypes.length = args.length)
    (ht : argTypesMatch (fr.query sid).paramTypes args = true) :
    emit fr w n args =
      (if (gSignalEmitv fr (emitSelfValue fr w :: args) sid detail
            (emitRetInit (fr.query sid).returnType)).type ≠ GType.unit
        ∧ (gSignalEmitv fr (emitSelfValue fr w :: args) sid detail
            (emitRetInit (fr.query sid).returnType)).type ≠ GType.invalid
       then Except.ok (some (gSignalEmitv fr (emitSelfValue fr w :: args) sid detail
            (emitRetInit (fr.query sid).returnType)))
       else Except.ok none) := by
  simp [emit, hp, hq, hc, ht]

/-- C3: `emit` resolves the signal on the instance's runtime type
(failing with the signal-not-found error, also when the queried
registration is inconsistent), then checks the argument count, then the
exact per-argument types, and only when every check passes invokes the
foreign emission primitive with the emitting instance prepended as the
implicit first argument. -/
theorem emit_check_order (fr : Foreign) (w : Wrapper) (n : String) (args : List GValue) :
    (fr.parseName (getType fr w) n = none →
      emit fr w n args = Except.error BErr.signalNotFound)
  ∧ (∀ sid detail, fr.parseName (getType fr w) n = some (sid, detail) →
      ((fr.query sid).signalId ≠ sid →
        emit fr w n args = Except.error BErr.signalNotFound)
    ∧ ((fr.query sid).signalId = sid →
        ((fr.query sid).paramTypes.length ≠ args.length →
          emit fr w n args = Except.error BErr.incompatibleArgNumber)
      ∧ ((fr.query sid).paramTypes.length = args.length →
          (argTypesMatch (fr.query sid).paramTypes args = false →
            emit fr w n args = Except.error BErr.incompatibleArgTypes)
        ∧ (argTypesMatch (fr.query sid).paramTypes args = true →
            emit fr w n args =
              (let rv := gSignalEmitv fr (emitSelfValue fr w :: args) sid detail
                  (emitRetInit (fr.query sid).returnType)
               if rv.type ≠ GType.unit ∧ rv.type ≠ GType.invalid then Except.ok (some rv)
               else Except.ok none))))) := by
  constructor
  · intro hp
    simp [emit, hp]
  · intro sid detail hp
    refine ⟨?_, ?_⟩
    · intro hq
      simp [emit, hp, hq]
    · intro hq
      refine ⟨?_, ?_⟩
      · intro hc
        simp [emit, hp, hq, hc]
      · intro hc
        refine ⟨?_, ?_⟩
        · intro ht
          simp [emit, hp, hq, hc, ht]
        · intro ht
          exact emit_all_pass fr w n args sid detail hp hq hc ht

/-- Witness for C3: every stage of `emit` reached at concrete signals
of the example world; the passing emissions show the unit-returning
and the value-returning outcome. -/
theorem emit_check_order_witness :
    emit exFr exW "nosig" [exVInt] = Except.error BErr.signalNotFound
  ∧ emit exFr exW "ghost" [exVInt] = Except.error BErr.signalNotFound
  ∧ emit exFr exW "sig" [] = Except.error BErr.incompatibleArgNumber
  ∧ emit exFr exW "sig" [exVSub] = Except.error BErr.incompatibleArgTypes
  ∧ emit exFr exW "sig" [exVInt] = Except.ok none
  ∧ emit exFr exW "vsig" [exVInt] = Except.ok (some (GValue.mk tInt 42)) := by
  refine ⟨(emit_check_order exFr exW "nosig" [exVInt]).1 (by decide),
    ((emit_check_order exFr exW "ghost" [exVInt]).2 9 0 (by decide)).1 (by decide),
    (((emit_check_order exFr exW "sig" []).2 7 0 (by decide)).2 (by decide)).1 (by decide),
    ((((emit_check_order exFr exW "sig" [exVSub]).2 7 0 (by decide)).2 (by decide)).2
      (by decide)).1 (by decide), ?_, ?_⟩
  · have h := ((((emit_check_order exFr exW "sig" [exVInt]).2 7 0 (by decide)).2
      (by decide)).2 (by decide)).2 (by decide)
    simpa using h
  · have h := ((((emit_check_order exFr exW "vsig" [exVInt]).2 8 0 (by decide)).2
      (by decide)).2 (by decide)).2 (by decide)
    simpa using h

/-- C10: whenever the argument checks pass and the emission completes,
the result is `Ok (some v)` exactly when the collected return value has
a type that is neither unit nor invalid, and `Ok none` otherwise; a
signal registered with unit return type always yields `Ok none`. -/
theorem emit_return_value (fr : Foreign) (w : Wrapper) (n : String) (args : List GValue)
    (sid detail : Nat)
    (hp : fr.parseName (getType fr w) n = some (sid, detail))
    (hq : (fr.query sid).signalId = sid)
    (hc : (fr.query sid).paramTypes.length = args.length)
    (ht : argTypesMatch (fr.query sid).paramTypes args = true) :
    (∀ v, emit fr w n args = Except.ok (some v) ↔
      (v = gSignalEmitv fr (emitSelfValue fr w :: args) sid detail
            (emitRetInit (fr.query sid).returnType)
        ∧ v.type ≠ GType.unit ∧ v.type ≠ GType.invalid))
  ∧ ((fr.query sid).returnType = GType.unit → emit fr w n args = Except.ok none) := by
  have hemit := emit_all_pass fr w n args sid detail hp hq hc ht
  constructor
  · intro v
    rw [hemit]
    generalize gSignalEmitv fr (emitSelfValue fr w :: args) sid detail
      (emitRetInit (fr.query sid).returnType) = rv
    by_cases hcond : rv.type ≠ GType.unit ∧ rv.type ≠ GType.invalid
    · rw [if_pos hcond]
      constructor
      · intro hv
        have hveq : v = rv := (Option.some.inj (Except.ok.inj hv)).symm
        exact ⟨hveq, by rw [hveq]; exact hcond.1, by rw [hveq]; exact hcond.2⟩
      · rintro ⟨hveq, hv1, hv2⟩
        rw [hveq]
    · rw [if_neg hcond]
      constructor
      · intro hv
        simp at hv
      · rintro ⟨hveq, hv1, hv2⟩
        exact absurd ⟨by rw [← hveq]; exact hv1, by rw [← hveq]; exact hv2⟩ hcond
  · intro hu
    rw [hemit]
    simp [gSignalEmitv, emitRetInit, hu]

/-- Witness for C10: the value-returning signal of the example world
yields exactly the collected value, while the unit-returning signal
yields `Ok none`. -/
theorem emit_return_value_witness :
    emit exFr exW "vsig" [exVInt] = Except.ok (some (GValue.mk tInt 42))
  ∧ emit exFr exW "sig" [exVInt] = Except.ok none := by
  constructor
  · exact ((emit_return_value exFr exW "vsig" [exVInt] 8 0 (by decide) (by decide)
      (by decide) (by decide)).1 (GValue.mk tInt 42)).mpr ⟨by decide, by decide, by decide⟩
  · exact (emit_return_value exFr exW "sig" [exVInt] 7 0 (by decide) (by decide)
      (by decide) (by decide)).2 (by decide)

/-- Counterexample for C4: the source performs the return-contract
check unconditionally — `connectWrap`, translated from a source that
carries no build-configuration gate, panics on a unit-returning signal
whose handler produced a value, while the claimed debug-only variant
passes such a value through in a non-debuggable build.  The claim's
restriction of the check to debuggable builds therefore does not hold
of the code. -/
theorem connect_debug_only_cex :
    connectWrap GType.unit (some exVInt) = ClosureOutcome.panicUnexpectedReturn
  ∧ connectWrapClaimed false GType.unit (some exVInt)
      ≠ ClosureOutcome.panicUnexpectedReturn := by
  decide

/-- C4 (amended): the closure wrapped around a connected handler
enforces the declared return contract in every build: with a unit
return type any returned value panics and no value is passed on; with a
non-unit return type a missing value panics, a value whose type does
not hold the declared return type panics, and a conforming value is
passed through. -/
theorem connect_return_contract (rt : GType) (ret : Option GValue) :
    (rt = GType.unit → ∀ v, ret = some v →
      connectWrap rt ret = ClosureOutcome.panicUnexpectedReturn)
  ∧ (rt = GType.unit → ret = none → connectWrap rt ret = ClosureOutcome.ret none)
  ∧ (rt ≠ GType.unit → ret = none →
      connectWrap rt ret = ClosureOutcome.panicMissingReturn)
  ∧ (rt ≠ GType.unit → ∀ v, ret = some v → gTypeCheckValueHolds v rt = false →
      connectWrap rt ret = ClosureOutcome.panicWrongReturnType)
  ∧ (rt ≠ GType.unit → ∀ v, ret = some v → gTypeCheckValueHolds v rt = true →
      connectWrap rt ret = ClosureOutcome.ret (some v)) := by
  refine ⟨?_, ?_, ?_, ?_, ?_⟩
  · intro hu v hv
    simp [connectWrap, hu, hv]
  · intro hu hv
    simp [connectWrap, hu, hv]
  · intro hu hv
    simp [connectWrap, hu, hv]
  · intro hu v hv hh
    simp [connectWrap, hu, hv, hh]
  · intro hu v hv hh
    simp [connectWrap, hu, hv, hh]

/-- Witness for C4 (amended): every branch of the contract exercised
at concrete values of the example world. -/
theorem connect_return_contract_witness :
    connectWrap GType.unit (some exVInt) = ClosureOutcome.panicUnexpectedReturn
  ∧ connectWrap GType.unit none = ClosureOutcome.ret none
  ∧ connectWrap tInt none = ClosureOutcome.panicMissingReturn
  ∧ connectWrap tInt (some exVOther) = ClosureOutcome.panicWrongReturnType
  ∧ connectWrap tInt (some exVSub) = ClosureOutcome.ret (some exVSub) := by
  refine ⟨(connect_return_contract GType.unit (some exVInt)).1 rfl exVInt rfl,
    (connect_return_contract GType.unit none).2.1 rfl rfl,
    (connect_return_contract tInt none).2.2.1 (by decide) rfl,
    (connect_return_contract tInt (some exVOther)).2.2.2.1 (by decide) exVOther rfl
      (by decide),
    (connect_return_contract tInt (some exVSub)).2.2.2.2 (by decide) exVSub rfl
      (by decide)⟩

/-- C7: a weak reference obtained by downgrading a wrapper upgrades to
a strong handle identical to the original while the instance's
reference count is positive, upgrades to nothing once the count is
zero, and upgrades to nothing after the last strong reference is
dropped. -/
theorem weakref_upgrade_liveness (fr : Foreign) (w : Wrapper) :
    (0 < fr.refCount w.ptr → upgrade fr (downgrade w) = some w)
  ∧ (fr.refCount w.ptr = 0 → upgrade fr (downgrade w) = none)
  ∧ (fr.refCount w.ptr = 1 → upgrade (dropStrong fr w.ptr) (downgrade w) = none) := by
  refine ⟨?_, ?_, ?_⟩
  · intro h
    simp [upgrade, downgrade, gWeakRefGet, h]
  · intro h
    simp [upgrade, downgrade, gWeakRefGet, h]
  · intro h
    simp [upgrade, downgrade, gWeakRefGet, dropStrong, h]

/-- Witness for C7: instance 1 of the example world (one strong
reference) upgrades to its original wrapper, no longer upgrades after
that reference is dropped, and the dead instance never upgrades. -/
theorem weakref_upgrade_liveness_witness :
    upgrade exFr (downgrade exW) = some exW
  ∧ upgrade (dropStrong exFr exW.ptr) (downgrade exW) = none
  ∧ upgrade exFr (downgrade exWDead) = none := by
  exact ⟨(weakref_upgrade_liveness exFr exW).1 (by decide),
    (weakref_upgrade_liveness exFr exW).2.2 (by decide),
    (weakref_upgrade_liveness exFr exWDead).2.1 (by decide)⟩

/-- C8: a `SendWeakRef` built from a weak reference on an origin
thread panics when dereferenced or converted back on any other thread,
succeeds on the origin thread, and can be cloned and dropped from any
thread. -/
theorem sendweakref_thread_confinement (wr : WeakRef) (t0 t : Nat) :
    (t ≠ t0 →
        sendWeakRefDeref (sendWeakRefFrom wr t0) t = none
      ∧ sendWeakRefIntoWeakRef (sendWeakRefFrom wr t0) t = none)
  ∧ (sendWeakRefDeref (sendWeakRefFrom wr t0) t0 = some wr
      ∧ sendWeakRefIntoWeakRef (sendWeakRefFrom wr t0) t0 = some wr)
  ∧ (sendWeakRefClone (sendWeakRefFrom wr t0) t = some (sendWeakRefFrom wr t0)
      ∧ sendWeakRefDrop (sendWeakRefFrom wr t0) t = some ()) := by
  refine ⟨?_, ?_, ?_⟩
  · intro h
    constructor <;>
      simp [sendWeakRefDeref, sendWeakRefIntoWeakRef, sendWeakRefFrom, Ne.symm h]
  · constructor <;> simp [sendWeakRefDeref, sendWeakRefIntoWeakRef, sendWeakRefFrom]
  · exact ⟨rfl, rfl⟩

/-- Witness for C8: concrete origin thread 0 and foreign thread 1. -/
theorem sendweakref_thread_confinement_witness :
    sendWeakRefDeref (sendWeakRefFrom (downgrade exW) 0) 1 = none
  ∧ sendWeakRefDeref (sendWeakRefFrom (downgrade exW) 0) 0 = some (downgrade exW)
  ∧ sendWeakRefClone (sendWeakRefFrom (downgrade exW) 0) 1
      = some (sendWeakRefFrom (downgrade exW) 0) := by
  exact ⟨((sendweakref_thread_confinement (downgrade exW) 0 1).1 (by decide)).1,
    (sendweakref_thread_confinement (downgrade exW) 0 1).2.1.1,
    (sendweakref_thread_confinement (downgrade exW) 0 1).2.2.1⟩

/-- C9: `has_property` with no expected type succeeds exactly when the
descriptor exists; with an expected type it succeeds exactly when the
descriptor exists and its declared value type equals the expected type
exactly, any different type — a strict subtype included — being
rejected, even though `set_property`'s own value check (the foreign
holds-test) accepts such a subtype. -/
theorem has_property_exact (fr : Foreign) (w : Wrapper) (n : String) :
    (has_property fr w n none = Except.ok () ↔ (findProperty fr w n).isSome = true)
  ∧ (∀ t, has_property fr w n (some t) = Except.ok () ↔
      (∃ p, findProperty fr w n = some p ∧ p.valueType = t))
  ∧ (∀ p t, findProperty fr w n = some p → t ≠ p.valueType →
      has_property fr w n (some t) = Except.error BErr.invalidPropertyType)
  ∧ (∀ p vt, findProperty fr w n = some p → GType.isA vt p.valueType = true →
      vt ≠ p.valueType →
      has_property fr w n (some vt) = Except.error BErr.invalidPropertyType
    ∧ gTypeCheckValueHolds (GValue.mk vt 0) p.valueType = true) := by
  refine ⟨?_, ?_, ?_, ?_⟩
  · cases hfind : findProperty fr w n <;>
      simp [has_property, get_property_type, hfind]
  · intro t
    cases hfind : findProperty fr w n with
    | none => simp [has_property, get_property_type, hfind]
    | some p =>
      by_cases ht : p.valueType = t <;>
        simp [has_property, get_property_type, hfind, ht]
  · intro p t hfind ht
    simp [has_property, get_property_type, hfind, Ne.symm ht]
  · intro p vt hfind hsub hne
    refine ⟨?_, hsub⟩
    simp [has_property, get_property_type, hfind, Ne.symm hne]

/-- Witness for C9: on the example instance, the readable property
exists (both query forms succeed at the exact declared type), while
querying it at the strict subtype `tIntSub` of its declared type is
rejected even though the set-side holds-test accepts a value of that
subtype. -/
theorem has_property_exact_witness :
    has_property exFr exW "p" none = Except.ok ()
  ∧ has_property exFr exW "p" (some tInt) = Except.ok ()
  ∧ has_property exFr exW "p" (some tIntSub) = Except.error BErr.invalidPropertyType
  ∧ gTypeCheckValueHolds (GValue.mk tIntSub 0) tInt = true := by
  have h4 := (has_property_exact exFr exW "p").2.2.2 pspecRW tIntSub (by decide)
    (by decide) (by decide)
  exact ⟨(has_property_exact exFr exW "p").1.mpr (by decide),
    ((has_property_exact exFr exW "p").2.1 tInt).mpr ⟨pspecRW, by decide, by decide⟩,
    h4.1, h4.2⟩

end GlibCore
